import Mathlib

/-!
Verification of the razorpay_integration client library.

The development shallowly embeds `razorpay_integration/api/razorpay_payment.py`:

* a byte-level SHA-256 and the HMAC construction of the python `hmac` module
  (used by `verify_payment_signature`), over `List Nat` bytes with explicit
  reduction modulo 2^32;
* the response normalizer `handle_api_response`, with the exception / parsed
  HTTP response / raw SDK result cases made explicit and the `frappe.throw` /
  `frappe.log_error` effects reified as data;
* the `RazorpayPayment` constructor together with the payment-link, payment
  fetch and refund operations, each reified as either an early `frappe.throw`
  or a single described network call.

Python integers are `Int` (for amounts) or `Nat` (for bytes and HTTP status
codes); python `None` is `Option.none`; a raised exception is an `Except.error`
or an explicit outcome constructor.
-/

/-! ## SHA-256 over byte lists

Faithful byte-level SHA-256 (FIPS 180-4), the algorithm `hashlib.sha256`
implements.  Words are `Nat` reduced modulo 2^32. -/

/-- Reduce to a 32-bit word. -/
def w32 (n : Nat) : Nat := n % 4294967296

/-- Right rotation of a 32-bit word. -/
def rotr32 (n x : Nat) : Nat := w32 ((x >>> n) ||| (x <<< (32 - n)))

def bigSigma0 (x : Nat) : Nat := (rotr32 2 x) ^^^ (rotr32 13 x) ^^^ (rotr32 22 x)

def bigSigma1 (x : Nat) : Nat := (rotr32 6 x) ^^^ (rotr32 11 x) ^^^ (rotr32 25 x)

def smallSigma0 (x : Nat) : Nat := (rotr32 7 x) ^^^ (rotr32 18 x) ^^^ (x >>> 3)

def smallSigma1 (x : Nat) : Nat := (rotr32 17 x) ^^^ (rotr32 19 x) ^^^ (x >>> 10)

def chFn (x y z : Nat) : Nat := (x &&& y) ^^^ ((4294967295 ^^^ x) &&& z)

def majFn (x y z : Nat) : Nat := (x &&& y) ^^^ (x &&& z) ^^^ (y &&& z)

/-- The 64 SHA-256 round constants (FIPS 180-4 section 4.2.2), in decimal;
the test-vector theorems below validate the table. -/
def sha256K : List Nat :=
  [1116352408, 1899447441, 3049323471, 3921009573, 961987163,
   1508970993, 2453635748, 2870763221, 3624381080, 310598401,
   607225278, 1426881987, 1925078388, 2162078206, 2614888103,
   3248222580, 3835390401, 4022224774, 264347078, 604807628,
   770255983, 1249150122, 1555081692, 1996064986, 2554220882,
   2821834349, 2952996808, 3210313671, 3336571891, 3584528711,
   113926993, 338241895, 666307205, 773529912, 1294757372,
   1396182291, 1695183700, 1986661051, 2177026350, 2456956037,
   2730485921, 2820302411, 3259730800, 3345764771, 3516065817,
   3600352804, 4094571909, 275423344, 430227734, 506948616,
   659060556, 883997877, 958139571, 1322822218, 1537002063,
   1747873779, 1955562222, 2024104815, 2227730452, 2361852424,
   2428436474, 2756734187, 3204031479, 3329325298]

/-- The eight 32-bit working variables of the compression function. -/
structure Hash8 where
  a : Nat
  b : Nat
  c : Nat
  d : Nat
  e : Nat
  f : Nat
  g : Nat
  h : Nat
deriving DecidableEq

/-- SHA-256 initial hash value (FIPS 180-4 section 5.3.3), in decimal. -/
def sha256Init : Hash8 :=
  ⟨1779033703, 3144134277, 1013904242, 2773480762,
   1359893119, 2600822924, 528734635, 1541459225⟩

/-- One compression round, consuming a round constant paired with a schedule word. -/
def roundStep (st : Hash8) (kw : Nat × Nat) : Hash8 :=
  let t1 := w32 (st.h + bigSigma1 st.e + chFn st.e st.f st.g + kw.1 + kw.2)
  let t2 := w32 (bigSigma0 st.a + majFn st.a st.b st.c)
  ⟨w32 (t1 + t2), st.a, st.b, st.c, w32 (st.d + t1), st.e, st.f, st.g⟩

def getW (l : List Nat) (i : Nat) : Nat := l.getD i 0

/-- Extend the message schedule by `n` words, keeping the sliding window of the
last 16 words (oldest first). -/
def scheduleAux : Nat → List Nat → List Nat
  | 0, _ => []
  | n + 1, recent =>
    let newW := w32 (getW recent 0 + smallSigma0 (getW recent 1) + getW recent 9 +
      smallSigma1 (getW recent 14))
    newW :: scheduleAux n (recent.drop 1 ++ [newW])

/-- Big-endian assembly of bytes into 32-bit words. -/
def bytesToWords : List Nat → List Nat
  | b0 :: b1 :: b2 :: b3 :: rest =>
    (((b0 * 256 + b1) * 256 + b2) * 256 + b3) :: bytesToWords rest
  | _ => []

/-- Split a word list into blocks of sixteen words. -/
def wordsToBlocks : List Nat → List (List Nat)
  | w0 :: w1 :: w2 :: w3 :: w4 :: w5 :: w6 :: w7 ::
    w8 :: w9 :: w10 :: w11 :: w12 :: w13 :: w14 :: w15 :: rest =>
    [w0, w1, w2, w3, w4, w5, w6, w7, w8, w9, w10, w11, w12, w13, w14, w15] ::
      wordsToBlocks rest
  | _ => []

/-- Compress one 16-word block into the running hash state. -/
def compressBlock (st : Hash8) (ws : List Nat) : Hash8 :=
  let full := ws ++ scheduleAux 48 ws
  let r := (sha256K.zip full).foldl roundStep st
  ⟨w32 (st.a + r.a), w32 (st.b + r.b), w32 (st.c + r.c), w32 (st.d + r.d),
   w32 (st.e + r.e), w32 (st.f + r.f), w32 (st.g + r.g), w32 (st.h + r.h)⟩

/-- Big-endian 64-bit length field of the padding. -/
def be64 (n : Nat) : List Nat :=
  [(n >>> 56) % 256, (n >>> 48) % 256, (n >>> 40) % 256, (n >>> 32) % 256,
   (n >>> 24) % 256, (n >>> 16) % 256, (n >>> 8) % 256, n % 256]

/-- SHA-256 padding: a 1-bit, zeros to 56 mod 64 bytes, then the bit length. -/
def padMessage (msg : List Nat) : List Nat :=
  let l := msg.length
  msg ++ [128] ++ List.replicate ((119 - l % 64) % 64) 0 ++ be64 (8 * l)

/-- Big-endian serialization of a 32-bit word. -/
def wordBytes (wv : Nat) : List Nat :=
  [(wv >>> 24) % 256, (wv >>> 16) % 256, (wv >>> 8) % 256, wv % 256]

/-- SHA-256 of a byte list, as the 32-byte digest. -/
def sha256 (msg : List Nat) : List Nat :=
  let st := (wordsToBlocks (bytesToWords (padMessage msg))).foldl compressBlock sha256Init
  wordBytes st.a ++ wordBytes st.b ++ wordBytes st.c ++ wordBytes st.d ++
  wordBytes st.e ++ wordBytes st.f ++ wordBytes st.g ++ wordBytes st.h

/-- Lowercase hexadecimal digit, as produced by python `hexdigest`. -/
def hexDigitChar : Nat → Char
  | 0 => '0' | 1 => '1' | 2 => '2' | 3 => '3'
  | 4 => '4' | 5 => '5' | 6 => '6' | 7 => '7'
  | 8 => '8' | 9 => '9' | 10 => 'a' | 11 => 'b'
  | 12 => 'c' | 13 => 'd' | 14 => 'e' | _ => 'f'

def byteToHex (b : Nat) : List Char := [hexDigitChar (b / 16), hexDigitChar (b % 16)]

/-- Lowercase hex encoding of a byte list. -/
def bytesToHex (bs : List Nat) : String := ⟨bs.flatMap byteToHex⟩

/-! ## HMAC, two ways

`hmacNew`/`HMACState.hexdigest` embed the flow of the python `hmac` module as
`verify_payment_signature` uses it: `hmac.new(key, msg, hashlib.sha256)` hashes
a key longer than the 64-byte block, zero-pads it, feeds the translated key and
then the message into the inner context, and `hexdigest` finishes the outer
context over the inner digest.  `hmacSha256Rfc` is an independent reference
formulation, the direct RFC 2104 formula
`H((K XOR opad) || H((K XOR ipad) || text))`. -/

/-- HMAC state of the python `hmac` module: the byte buffers accumulated by the
inner and outer hash contexts. -/
structure HMACState where
  innerBuf : List Nat
  outerBuf : List Nat
deriving DecidableEq

/-- The SHA-256 block size used by the python `hmac` module. -/
def hmacBlocksize : Nat := 64

/-- `hmac.new(key, msg, hashlib.sha256)`: hash an over-long key, zero-pad to the
block size, translate with the 0x36 table into the inner context and the 0x5c
table into the outer context, then update the inner context with the message. -/
def hmacNew (key msg : List Nat) : HMACState :=
  let key0 := if key.length > hmacBlocksize then sha256 key else key
  let keyPadded := key0 ++ List.replicate (hmacBlocksize - key0.length) 0
  { innerBuf := keyPadded.map (fun b => b ^^^ 54) ++ msg,
    outerBuf := keyPadded.map (fun b => b ^^^ 92) }

/-- `hexdigest()`: finish the outer context on the inner digest and hex-encode. -/
def HMACState.hexdigest (st : HMACState) : String :=
  bytesToHex (sha256 (st.outerBuf ++ sha256 st.innerBuf))

/-- Independent reference HMAC-SHA256: the RFC 2104 formula applied directly. -/
def hmacSha256Rfc (key text : List Nat) : List Nat :=
  let keyHashed := if 64 < key.length then sha256 key else key
  let keyPrime := keyHashed ++ List.replicate (64 - keyHashed.length) 0
  sha256 ((keyPrime.map (fun b => b ^^^ 0x5c)) ++
    sha256 ((keyPrime.map (fun b => b ^^^ 0x36)) ++ text))

/-- The module-flow HMAC and the reference RFC 2104 HMAC agree on every key and
message. -/
theorem hmac_module_eq_rfc (key msg : List Nat) :
    (hmacNew key msg).hexdigest = bytesToHex (hmacSha256Rfc key msg) := rfl

/-- UTF-8 encoding of one scalar value, as python `str.encode("utf-8")`
produces it. -/
def utf8EncodeCharNat (c : Char) : List Nat :=
  let n := c.toNat
  if n < 128 then [n]
  else if n < 2048 then [192 + n / 64, 128 + n % 64]
  else if n < 65536 then [224 + n / 4096, 128 + (n / 64) % 64, 128 + n % 64]
  else [240 + n / 262144, 128 + (n / 4096) % 64, 128 + (n / 64) % 64, 128 + n % 64]

/-- UTF-8 encoding of a string, the `bytes(s, "utf-8")` of the source. -/
def utf8Bytes (s : String) : List Nat := s.data.flatMap utf8EncodeCharNat

set_option maxRecDepth 100000 in
/-- Sanity vector: SHA-256 of "abc" (FIPS 180-4 example). -/
theorem sha256_abc_vector :
    bytesToHex (sha256 (utf8Bytes "abc")) =
      "ba7816bf8f01cfea414140de5dae2223b00361a396177a9cb410ff61f20015ad" := by decide

set_option maxRecDepth 100000 in
/-- Sanity vector: RFC 4231 test case 1 for HMAC-SHA256. -/
theorem hmac_rfc4231_vector :
    bytesToHex (hmacSha256Rfc (List.replicate 20 11) (utf8Bytes "Hi There")) =
      "b0344c61d8db38535ca8afceaf0bf12b881dc200c9833da726e9376c2e32cff7" := by decide

/-! ## The signature verifier

Embedding of `RazorpayPayment.verify_payment_signature`.  The source builds the
pipe-delimited message, computes the HMAC-SHA256 hex digest keyed by the UTF-8
api secret, and compares with `hmac.compare_digest`; on mismatch it either
raises via `frappe.throw` (reified as `Except.error`) or returns `False`.  The
source mutates nothing and logs nothing in this function. -/

/-- The credential pair, `Auth = namedtuple("Auth", ["api_key", "api_secret"])`. -/
structure Auth where
  api_key : String
  api_secret : String
deriving DecidableEq

/-- `hmac.compare_digest` on two ASCII strings: a constant-time comparison whose
value is plain equality. -/
def compare_digest (a b : String) : Bool := a == b

/-- Embedding of `verify_payment_signature`. -/
def verify_payment_signature (auth : Auth)
    (razorpay_payment_link_id razorpay_payment_link_reference_id
      razorpay_payment_link_status razorpay_payment_id
      razorpay_signature : String)
    (raise_err : Bool) : Except String Bool :=
  let message := razorpay_payment_link_id ++ "|" ++
    razorpay_payment_link_reference_id ++ "|" ++
    razorpay_payment_link_status ++ "|" ++
    razorpay_payment_id
  let secret := utf8Bytes auth.api_secret
  let msg := utf8Bytes message
  if ! compare_digest (hmacNew secret msg).hexdigest razorpay_signature then
    if raise_err then
      Except.error "Razorpay Payment Signature Verification Failed"
    else
      Except.ok false
  else
    Except.ok true

/-! ## The response normalizer

Embedding of the module-level `handle_api_response`.  Its input is the outcome
of invoking the supplied callable: an exception, a `requests.Response` (whose
JSON body may or may not parse, and may carry a truthy "error" object), or a
raw non-Response result such as a dict from the razorpay SDK.  `frappe.throw`
is reified as the `thrown` outcome, an uncaught python exception as `pyError`,
and `frappe.log_error` calls are collected in a log list. -/

/-- A gateway error object: the "code" and "description" entries, each possibly
absent (python `dict.get` returning `None`). -/
structure ErrorObj where
  code : Option String
  description : Option String
deriving DecidableEq

/-- A JSON response body, abstracted to the one key the normalizer reads:
`error := some e` models a present and truthy "error" entry. -/
structure RespBody where
  error : Option ErrorObj
deriving DecidableEq

/-- Outcome of invoking the callable handed to `handle_api_response`. -/
inductive CallResult where
  | exc (e : String)
  | httpResponse (status : Nat) (body : RespBody)
  | httpResponseNonJson (status : Nat)
  | raw (body : RespBody)
deriving DecidableEq

/-- A `frappe.log_error` record. -/
inductive LogEntry where
  | excLog (e : String)
  | errLog (err : ErrorObj)
deriving DecidableEq

/-- What the caller of the normalizer observes. -/
inductive Outcome where
  | ok (body : RespBody)
  | thrown (msg : String)
  | pyError (msg : String)
deriving DecidableEq

/-- Result of the normalizer: the observable outcome plus the operator log. -/
structure NormResult where
  result : Outcome
  log : List LogEntry
deriving DecidableEq

/-- Embedding of `handle_api_response`.  An exception is logged and replaced by
the generic thrown message; a `requests.Response` is parsed (`.json()` raising
uncaught on a non-JSON body, since that call sits outside the try block) and a
truthy "error" entry is logged and re-thrown as code and description joined by
"- " (a missing code or description makes the python string concatenation raise
`TypeError`); every other result is returned unchanged. -/
def handle_api_response : CallResult → NormResult
  | .exc e => { result := .thrown "Something Bad Happened !", log := [.excLog e] }
  | .httpResponse _status body =>
    match body.error with
    | none => { result := .ok body, log := [] }
    | some err =>
      match err.code, err.description with
      | some c, some d => { result := .thrown (c ++ "- " ++ d), log := [.errLog err] }
      | _, _ => { result := .pyError "TypeError", log := [.errLog err] }
  | .httpResponseNonJson _status => { result := .pyError "JSONDecodeError", log := [] }
  | .raw body => { result := .ok body, log := [] }

/-! ## The gateway client constructor

Embedding of `RazorpayPayment.__init__`: it stores the credentials, runs
`validate_razorpay_creds` (a GET probe on `customers?count=1` fed through the
normalizer), and only if that returns without raising does it initialize
`razorpay.Client`.  The probe outcome is passed in as the `CallResult` the
probe request produced. -/

/-- A fully constructed client: credentials plus the SDK client handle
(`rzp_client = true` once `razorpay.Client` has been initialized). -/
structure RazorpayPayment where
  auth : Auth
  rzp_client : Bool
deriving DecidableEq

/-- The `base_api_url` attribute set by the constructor. -/
def base_api_url : String := "https://api.razorpay.com/v1/"

/-- Embedding of `RazorpayPayment.__init__` given the probe call outcome. -/
def RazorpayPayment.init (api_key api_secret : String) (probe : CallResult) :
    Except String RazorpayPayment :=
  match (handle_api_response probe).result with
  | .ok _ => Except.ok { auth := ⟨api_key, api_secret⟩, rzp_client := true }
  | .thrown m => Except.error m
  | .pyError m => Except.error m

/-! ## The payment-link, fetch and refund operations

Each operation either raises a local validation error via `frappe.throw`
before any network activity, or hands exactly one described call to the
normalizer.  `OpAction` reifies that choice. -/

/-- The customer sub-object of the create payload. -/
structure Customer where
  name : String
  email : String
  phone : String
deriving DecidableEq

/-- The notify sub-object of the create payload. -/
structure Notify where
  sms : Bool
  email : Bool
deriving DecidableEq

/-- The JSON payload `_create_payment_link` posts. -/
structure PaymentLinkPayload where
  amount : Int
  callback_url : String
  callback_method : String
  currency : String
  customer : Customer
  description : String
  expire_by : Int
  notify : Notify
  reference_id : String
  notes : List (String × String)
deriving DecidableEq

inductive HttpMethod where
  | get
  | post
deriving DecidableEq

/-- A direct HTTP request issued via `requests`. -/
structure HttpRequest where
  method : HttpMethod
  url : String
  jsonBody : Option PaymentLinkPayload
deriving DecidableEq

/-- A call delegated to the razorpay SDK client.  `refundFull` is
`rzp_client.payment.refund(payment_id)` with no amount argument;
`refundWithAmount` passes the converted amount. -/
inductive SdkCall where
  | paymentFetch (payment_id : String)
  | refundFull (payment_id : String)
  | refundWithAmount (payment_id : String) (amount : Int)
deriving DecidableEq

inductive PlannedCall where
  | http (r : HttpRequest)
  | sdk (c : SdkCall)
deriving DecidableEq

/-- An operation either throws before any network call or issues one call. -/
inductive OpAction where
  | throwEarly (msg : String)
  | invoke (c : PlannedCall)
deriving DecidableEq

/-- Modelled from the spec: `frappe.utils.get_url` of the frappe framework
(outside this repository) resolves a path to an absolute URL on the hosting
site, the "well-known status endpoint" the spec names as the default callback.
The exact site prefix is irrelevant to every claim. -/
def frappe_utils_get_url (path : String) : String := "https://site.example/" ++ path

/-- Embedding of `_create_payment_link`.  `amount = none` models python
`None`; the guard `not amount or amount < 1` is true for `None`, `0`, and any
amount below 1.  `fresh_uuid` is the `str(uuid4())` drawn when the caller
supplies no reference id, passed explicitly since it is the only
nondeterminism. -/
def _create_payment_link (amount : Option Int) (api_endpoint : String)
    (callback_url description : String) (expire_by : Int)
    (payer_email payer_phone payer_name reference_id : String)
    (notify_via_email notify_via_sms : Bool)
    (notes : List (String × String)) (fresh_uuid : String) : OpAction :=
  match amount with
  | none => .throwEarly "Amount (INT) is required for creating a payment link !"
  | some a =>
    if a = 0 ∨ a < 1 then
      .throwEarly "Amount (INT) is required for creating a payment link !"
    else
      .invoke (.http
        { method := .post,
          url := base_api_url ++ api_endpoint,
          jsonBody := some
            { amount := a * 100,
              callback_url :=
                if callback_url = "" then frappe_utils_get_url "razorpay_payment_status"
                else callback_url,
              callback_method := "get",
              currency := "INR",
              customer := ⟨payer_name, payer_email, payer_phone⟩,
              description := description,
              expire_by := expire_by,
              notify := ⟨notify_via_sms, notify_via_email⟩,
              reference_id := if reference_id = "" then fresh_uuid else reference_id,
              notes := notes } })

/-- Embedding of `get_or_create_payment_link`: a truthy (non-empty) link id
issues the GET built with the f-string
`f"{self.base_api_url}/{api_endpoint}/{payment_link_id}"`; otherwise the call
is delegated to `_create_payment_link`. -/
def get_or_create_payment_link (payment_link_id : String)
    (amount : Option Int) (callback_url description : String) (expire_by : Int)
    (payer_email payer_phone payer_name reference_id : String)
    (notify_via_email notify_via_sms : Bool)
    (notes : List (String × String)) (fresh_uuid : String) : OpAction :=
  let api_endpoint := "payment_links"
  if payment_link_id ≠ "" then
    .invoke (.http
      { method := .get,
        url := base_api_url ++ "/" ++ api_endpoint ++ "/" ++ payment_link_id,
        jsonBody := none })
  else
    _create_payment_link amount api_endpoint callback_url description expire_by
      payer_email payer_phone payer_name reference_id
      notify_via_email notify_via_sms notes fresh_uuid

/-- Embedding of `get_payment`. -/
def get_payment (payment_id : String) : OpAction :=
  if payment_id = "" then
    .throwEarly "Please Provide Payment ID for fetching the respective payment !"
  else
    .invoke (.sdk (.paymentFetch payment_id))

/-- Embedding of `refund_payment`: empty id throws, falsy (zero) amount issues
the full refund with no amount argument, otherwise the amount is multiplied by
100 and passed along. -/
def refund_payment (payment_id : String) (refund_amt : Int) : OpAction :=
  if payment_id = "" then
    .throwEarly "Please Provide Payment ID for which the amount needs to be refunded !"
  else if refund_amt = 0 then
    .invoke (.sdk (.refundFull payment_id))
  else
    .invoke (.sdk (.refundWithAmount payment_id (refund_amt * 100)))

/-- The amount field carried by the JSON body of an issued HTTP call, when any. -/
def OpAction.sentAmount : OpAction → Option Int
  | .invoke (.http r) => Option.map PaymentLinkPayload.amount r.jsonBody
  | _ => none

/-! ## Claims -/

set_option maxRecDepth 100000 in
/-- C1: `verify_payment_signature` computes the hex-encoded HMAC-SHA256 digest,
keyed by the UTF-8 encoded api secret, of the UTF-8 encoded message
`linkId ++ "|" ++ referenceId ++ "|" ++ status ++ "|" ++ paymentId` in exactly
that order; that digest equals the one produced by the independent RFC 2104
reference implementation on the same message and secret; and the function
returns `true` exactly when the digest equals the supplied signature. -/
theorem claim_C1_signature_digest
    (api_key api_secret lid rid lstatus pid sig : String) (raise_err : Bool) :
    ((hmacNew (utf8Bytes api_secret)
        (utf8Bytes (lid ++ "|" ++ rid ++ "|" ++ lstatus ++ "|" ++ pid))).hexdigest
      = bytesToHex (hmacSha256Rfc (utf8Bytes api_secret)
          (utf8Bytes (lid ++ "|" ++ rid ++ "|" ++ lstatus ++ "|" ++ pid))))
    ∧ (verify_payment_signature ⟨api_key, api_secret⟩ lid rid lstatus pid sig raise_err
        = Except.ok true
      ↔ bytesToHex (hmacSha256Rfc (utf8Bytes api_secret)
          (utf8Bytes (lid ++ "|" ++ rid ++ "|" ++ lstatus ++ "|" ++ pid))) = sig) := by
  refine ⟨hmac_module_eq_rfc _ _, ?_⟩
  rw [← hmac_module_eq_rfc]
  simp only [verify_payment_signature, compare_digest]
  by_cases h : (hmacNew (utf8Bytes api_secret)
      (utf8Bytes (lid ++ "|" ++ rid ++ "|" ++ lstatus ++ "|" ++ pid))).hexdigest = sig
  · simp [h]
  · cases raise_err <;> simp [h]

/-- C4: on a digest mismatch, `verify_payment_signature` with `raise_err`
unset returns `false` without raising, and with `raise_err` set it raises the
signature-verification-failure error; the embedded function is pure (the
source logs nothing and mutates nothing on this path), so no state changes. -/
theorem claim_C4_mismatch_behaviour
    (api_key api_secret lid rid lstatus pid sig : String)
    (hne : (hmacNew (utf8Bytes api_secret)
        (utf8Bytes (lid ++ "|" ++ rid ++ "|" ++ lstatus ++ "|" ++ pid))).hexdigest ≠ sig) :
    verify_payment_signature ⟨api_key, api_secret⟩ lid rid lstatus pid sig false
      = Except.ok false
    ∧ verify_payment_signature ⟨api_key, api_secret⟩ lid rid lstatus pid sig true
      = Except.error "Razorpay Payment Signature Verification Failed" := by
  constructor <;> simp [verify_payment_signature, compare_digest, hne]

set_option maxRecDepth 100000 in
/-- C4 witness: a concrete mismatching signature. -/
theorem claim_C4_mismatch_witness :
    ((hmacNew (utf8Bytes "secret")
        (utf8Bytes ("A" ++ "|" ++ "B" ++ "|" ++ "C" ++ "|" ++ "D"))).hexdigest ≠ "deadbeef")
    ∧ verify_payment_signature ⟨"key", "secret"⟩ "A" "B" "C" "D" "deadbeef" false
        = Except.ok false
    ∧ verify_payment_signature ⟨"key", "secret"⟩ "A" "B" "C" "D" "deadbeef" true
        = Except.error "Razorpay Payment Signature Verification Failed" := by
  have hne : (hmacNew (utf8Bytes "secret")
      (utf8Bytes ("A" ++ "|" ++ "B" ++ "|" ++ "C" ++ "|" ++ "D"))).hexdigest ≠ "deadbeef" := by
    decide
  exact ⟨hne,
    (claim_C4_mismatch_behaviour "key" "secret" "A" "B" "C" "D" "deadbeef" hne).1,
    (claim_C4_mismatch_behaviour "key" "secret" "A" "B" "C" "D" "deadbeef" hne).2⟩

/-- The gateway error object of the C2 scenario. -/
def badRequestError : ErrorObj :=
  ⟨some "BAD_REQUEST_ERROR", some "amount must be at least INR 1.00"⟩

/-- C2 counterexample: a raw (non `requests.Response`) result carrying the very
error object of the claim is returned unchanged by `handle_api_response`; the
caller receives a success, not the claimed failure, because the error check
only runs on `requests.Response` instances. -/
theorem claim_C2_raw_error_counterexample :
    (handle_api_response (.raw ⟨some badRequestError⟩)).result
      = .ok ⟨some badRequestError⟩
    ∧ (handle_api_response (.raw ⟨some badRequestError⟩)).result
      ≠ .thrown "BAD_REQUEST_ERROR- amount must be at least INR 1.00" := by
  decide

/-- C2 amended: whenever the result is a parsed `requests.Response` whose JSON
body carries an error object with a code and a description, the caller
receives a failure whose message is exactly the code concatenated with "- "
and the description; raw (non-Response) results bypass this check. -/
theorem claim_C2_parsed_error_message (status : Nat) (err : ErrorObj) (c d : String)
    (hc : err.code = some c) (hd : err.description = some d) :
    (handle_api_response (.httpResponse status ⟨some err⟩)).result
      = .thrown (c ++ "- " ++ d) := by
  cases err with
  | mk code description =>
    cases hc
    cases hd
    rfl

/-- C2 witness: the scenario of the claim, on a parsed 400 response. -/
theorem claim_C2_parsed_error_witness :
    badRequestError.code = some "BAD_REQUEST_ERROR"
    ∧ badRequestError.description = some "amount must be at least INR 1.00"
    ∧ (handle_api_response (.httpResponse 400 ⟨some badRequestError⟩)).result
      = .thrown "BAD_REQUEST_ERROR- amount must be at least INR 1.00" := by
  refine ⟨rfl, rfl, ?_⟩
  exact (claim_C2_parsed_error_message 400 badRequestError
    "BAD_REQUEST_ERROR" "amount must be at least INR 1.00" rfl rfl).trans (by decide)

/-- C3 counterexample: the generic failure message surfaced on a transport
exception is "Something Bad Happened !" (with the trailing " !" of the
source), not "Something Bad Happened" as the claim states. -/
theorem claim_C3_message_counterexample :
    (handle_api_response (.exc "ConnectionError")).result
      ≠ .thrown "Something Bad Happened"
    ∧ (handle_api_response (.exc "ConnectionError")).result
      = .thrown "Something Bad Happened !" := by
  decide

/-- C3 amended: for every operation whose invocation raises a transport or SDK
exception, the normalizer logs the exception and the caller receives the
generic failure "Something Bad Happened !", a message independent of the
exception, so no detail of the underlying exception leaks to the caller. -/
theorem claim_C3_transport_exception (e : String) :
    handle_api_response (.exc e)
      = { result := .thrown "Something Bad Happened !", log := [.excLog e] } := rfl

/-- C5: every local-precondition violation throws the validation error as an
early `OpAction.throwEarly`, i.e. before any network call is issued:
payment-link creation with a missing (`none`) or non-positive amount,
`get_payment` with an empty payment id, and `refund_payment` with an empty
payment id. -/
theorem claim_C5_fail_fast_validation :
    (∀ amount : Option Int, (∀ a, amount = some a → a < 1) →
      ∀ ep cb desc eb pe pp pn rid nve nvs notes uuid,
        _create_payment_link amount ep cb desc eb pe pp pn rid nve nvs notes uuid
          = .throwEarly "Amount (INT) is required for creating a payment link !")
    ∧ get_payment ""
        = .throwEarly "Please Provide Payment ID for fetching the respective payment !"
    ∧ (∀ amt : Int, refund_payment "" amt
        = .throwEarly "Please Provide Payment ID for which the amount needs to be refunded !") := by
  refine ⟨?_, rfl, fun amt => rfl⟩
  intro amount h ep cb desc eb pe pp pn rid nve nvs notes uuid
  cases amount with
  | none => rfl
  | some a =>
    have ha : a < 1 := h a rfl
    simp only [_create_payment_link]
    rw [if_pos (Or.inr ha)]

/-- C5 witness: concrete violating inputs for all three operations. -/
theorem claim_C5_fail_fast_witness :
    _create_payment_link (some 0) "payment_links" "" "" 0 "" "" "" "" false false [] "u"
      = .throwEarly "Amount (INT) is required for creating a payment link !"
    ∧ _create_payment_link none "payment_links" "" "" 0 "" "" "" "" false false [] "u"
      = .throwEarly "Amount (INT) is required for creating a payment link !"
    ∧ get_payment ""
      = .throwEarly "Please Provide Payment ID for fetching the respective payment !"
    ∧ refund_payment "" 5
      = .throwEarly "Please Provide Payment ID for which the amount needs to be refunded !" := by
  refine ⟨claim_C5_fail_fast_validation.1 (some 0) ?_ _ _ _ _ _ _ _ _ _ _ _ _,
    claim_C5_fail_fast_validation.1 none ?_ _ _ _ _ _ _ _ _ _ _ _ _,
    claim_C5_fail_fast_validation.2.1,
    claim_C5_fail_fast_validation.2.2 5⟩
  · intro a ha
    cases ha
    decide
  · intro a ha
    cases ha

/-- C6: for every accepted amount `a > 0`, the amount field of the transmitted
create request equals `a * 100` exactly, as integer arithmetic. -/
theorem claim_C6_amount_minor_units (a : Int) (ha : 0 < a)
    (ep cb desc : String) (eb : Int) (pe pp pn rid : String) (nve nvs : Bool)
    (notes : List (String × String)) (uuid : String) :
    (_create_payment_link (some a) ep cb desc eb pe pp pn rid nve nvs notes uuid).sentAmount
      = some (a * 100) := by
  have h : ¬ (a = 0 ∨ a < 1) := by omega
  simp only [_create_payment_link]
  rw [if_neg h]
  rfl

/-- C6 witness: amount 500 is transmitted as 50000. -/
theorem claim_C6_amount_witness :
    ((0:Int) < 500)
    ∧ (_create_payment_link (some 500) "payment_links" "" "" 0 "" "" "" ""
        false false [] "u").sentAmount = some 50000 := by
  refine ⟨by decide, ?_⟩
  exact (claim_C6_amount_minor_units 500 (by decide) "payment_links" "" "" 0 "" "" "" ""
    false false [] "u").trans (by decide)

/-- C7: for a non-empty payment id, a zero (or defaulted) amount issues the
full-refund SDK call with no amount argument, and every positive amount issues
the refund call carrying the amount multiplied by 100. -/
theorem claim_C7_refund_modes (pid : String) (hpid : pid ≠ "") :
    refund_payment pid 0 = .invoke (.sdk (.refundFull pid))
    ∧ ∀ amt : Int, 0 < amt →
        refund_payment pid amt = .invoke (.sdk (.refundWithAmount pid (amt * 100))) := by
  constructor
  · simp [refund_payment, hpid]
  · intro amt hamt
    have h0 : amt ≠ 0 := by omega
    simp [refund_payment, hpid, h0]

/-- C7 witness: the scenario of the claim (paymentId "pay_123", amount 0) and
a positive partial amount. -/
theorem claim_C7_refund_witness :
    ("pay_123" ≠ "")
    ∧ refund_payment "pay_123" 0 = .invoke (.sdk (.refundFull "pay_123"))
    ∧ refund_payment "pay_123" 5 = .invoke (.sdk (.refundWithAmount "pay_123" 500)) := by
  have h : ("pay_123":String) ≠ "" := by decide
  refine ⟨h, (claim_C7_refund_modes "pay_123" h).1, ?_⟩
  exact ((claim_C7_refund_modes "pay_123" h).2 5 (by decide)).trans (by decide)

/-- C8 counterexample: the fetch URL is built by the f-string as the base URL
(which already ends in a slash) joined with "/payment_links/" and the id, so
the issued URL carries a double slash and is not exactly the base URL followed
by `payment_links/{id}`. -/
theorem claim_C8_double_slash_counterexample :
    get_or_create_payment_link "plink_1" none "" "" 0 "" "" "" "" false false [] "u"
      = .invoke (.http
          { method := .get,
            url := "https://api.razorpay.com/v1//payment_links/plink_1",
            jsonBody := none })
    ∧ "https://api.razorpay.com/v1//payment_links/plink_1"
      ≠ base_api_url ++ "payment_links/" ++ "plink_1" := by
  constructor
  · decide
  · decide

/-- C8 amended: for every non-empty id, `get_or_create_payment_link` issues
only a read-only GET at the URL formed as the base API URL joined with a "/",
"payment_links", another "/" and the id (yielding a double slash, since the
base URL already ends in "/"), ignoring all other supplied fields; with no id
it delegates to `_create_payment_link`. -/
theorem claim_C8_fetch_by_id (pid : String) (hpid : pid ≠ "")
    (amount : Option Int) (cb desc : String) (eb : Int) (pe pp pn rid : String)
    (nve nvs : Bool) (notes : List (String × String)) (uuid : String) :
    get_or_create_payment_link pid amount cb desc eb pe pp pn rid nve nvs notes uuid
      = .invoke (.http
          { method := .get,
            url := base_api_url ++ "/" ++ "payment_links" ++ "/" ++ pid,
            jsonBody := none })
    ∧ get_or_create_payment_link "" amount cb desc eb pe pp pn rid nve nvs notes uuid
      = _create_payment_link amount "payment_links" cb desc eb pe pp pn rid
          nve nvs notes uuid := by
  constructor
  · simp [get_or_create_payment_link, hpid]
  · simp [get_or_create_payment_link]

/-- C8 witness: a concrete fetch and a concrete delegation to the create path. -/
theorem claim_C8_fetch_witness :
    ("plink_1" ≠ "")
    ∧ get_or_create_payment_link "plink_1" none "" "" 0 "" "" "" "" false false [] "u"
      = .invoke (.http
          { method := .get,
            url := base_api_url ++ "/" ++ "payment_links" ++ "/" ++ "plink_1",
            jsonBody := none })
    ∧ get_or_create_payment_link "" (some 500) "" "" 0 "" "" "" "" false false [] "u"
      = _create_payment_link (some 500) "payment_links" "" "" 0 "" "" "" ""
          false false [] "u" := by
  have h : ("plink_1":String) ≠ "" := by decide
  exact ⟨h,
    (claim_C8_fetch_by_id "plink_1" h none "" "" 0 "" "" "" "" false false [] "u").1,
    (claim_C8_fetch_by_id "plink_1" h (some 500) "" "" 0 "" "" "" "" false false [] "u").2⟩

/-- C9 counterexample: the constructor never inspects the HTTP status code of
the credential probe; a 401 (non-success) response whose JSON body carries no
"error" entry lets construction succeed and returns a fully usable client,
contradicting the claim that any non-success status makes construction fail. -/
theorem claim_C9_status_ignored_counterexample :
    RazorpayPayment.init "k" "s" (.httpResponse 401 ⟨none⟩)
      = Except.ok { auth := ⟨"k", "s"⟩, rzp_client := true } := rfl

/-- C9 amended: construction fails atomically whenever the probe raises a
transport error or its JSON body carries an error object with code and
description (what the gateway produces on an authentication failure such as
HTTP 401): the constructor raises and no instance is returned; conversely any
client the constructor returns has the SDK client initialized.  The HTTP
status code itself is never consulted. -/
theorem claim_C9_atomic_construction (api_key api_secret : String) (probe : CallResult) :
    (∀ e, probe = .exc e →
      RazorpayPayment.init api_key api_secret probe
        = Except.error "Something Bad Happened !")
    ∧ (∀ status err c d, probe = .httpResponse status ⟨some err⟩ →
        err.code = some c → err.description = some d →
        RazorpayPayment.init api_key api_secret probe = Except.error (c ++ "- " ++ d))
    ∧ (∀ client, RazorpayPayment.init api_key api_secret probe = Except.ok client →
        client.rzp_client = true ∧ client.auth = ⟨api_key, api_secret⟩) := by
  refine ⟨?_, ?_, ?_⟩
  · rintro e rfl
    rfl
  · rintro status err c d rfl hc hd
    cases err with
    | mk code description =>
      cases hc
      cases hd
      rfl
  · intro client h
    unfold RazorpayPayment.init at h
    split at h
    · cases h
      exact ⟨rfl, rfl⟩
    · cases h
    · cases h

/-- C9 witness: a transport error and a 401-style error body both abort
construction with the expected messages. -/
theorem claim_C9_atomic_witness :
    RazorpayPayment.init "k" "s" (.exc "ConnectionTimeout")
      = Except.error "Something Bad Happened !"
    ∧ RazorpayPayment.init "k" "s" (.httpResponse 401 ⟨some badRequestError⟩)
      = Except.error ("BAD_REQUEST_ERROR" ++ "- " ++ "amount must be at least INR 1.00") := by
  refine ⟨(claim_C9_atomic_construction "k" "s" _).1 "ConnectionTimeout" rfl, ?_⟩
  exact (claim_C9_atomic_construction "k" "s" _).2.1 401 badRequestError
    "BAD_REQUEST_ERROR" "amount must be at least INR 1.00" rfl rfl rfl

/-- C10: for a non-empty payment id and a negative amount, `refund_payment`
raises no local validation error and does not issue the full-refund call: it
multiplies the negative amount by 100 and issues the amount-carrying refund
call with that negative amount, deferring rejection to the gateway. -/
theorem claim_C10_negative_refund (pid : String) (hpid : pid ≠ "")
    (amt : Int) (hneg : amt < 0) :
    (∀ m, refund_payment pid amt ≠ OpAction.throwEarly m)
    ∧ refund_payment pid amt ≠ .invoke (.sdk (.refundFull pid))
    ∧ refund_payment pid amt = .invoke (.sdk (.refundWithAmount pid (amt * 100))) := by
  have h0 : amt ≠ 0 := by omega
  have hmain : refund_payment pid amt
      = .invoke (.sdk (.refundWithAmount pid (amt * 100))) := by
    simp [refund_payment, hpid, h0]
  refine ⟨?_, ?_, hmain⟩
  · intro m
    rw [hmain]
    simp
  · rw [hmain]
    simp

/-- C10 witness: refunding -5 on "pay_123" issues the call carrying -500. -/
theorem claim_C10_negative_refund_witness :
    ("pay_123" ≠ "") ∧ ((-5:Int) < 0)
    ∧ refund_payment "pay_123" (-5)
      = .invoke (.sdk (.refundWithAmount "pay_123" (-500))) := by
  have h : ("pay_123":String) ≠ "" := by decide
  have hneg : (-5:Int) < 0 := by decide
  refine ⟨h, hneg, ?_⟩
  exact ((claim_C10_negative_refund "pay_123" h (-5) hneg).2.2).trans (by decide)
